import Mathlib

/-!
Verification of the pynsc / studentclearinghouse repository.

Shallow embedding of the two NSC request builders
(src/pynsc/nsc_request.py and src/studentclearinghouse/nsc_request.py)
and of the return-file aggregator
(src/studentclearinghouse/nsc_return_se_convert.py), together with
theorems settling the specification claims.
-/

namespace NSC

/-! ## String primitives

Python strings are modelled as Lean `String` (a list of characters).
`str.strip()` is modelled over the ASCII whitespace characters
(tab, LF, VT, FF, CR, space); the code never manipulates the more
exotic Unicode space characters.
-/

/-- Whitespace predicate used by the model of Python `str.strip()`. -/
def pyWS (c : Char) : Bool :=
  c = ' ' || c = '\t' || c = '\n' || c = '\r' || c.toNat = 11 || c.toNat = 12

/-- Left trim at the character-list level. -/
def trimLChars (l : List Char) : List Char := l.dropWhile pyWS

/-- Right trim at the character-list level. -/
def trimRChars (l : List Char) : List Char := (l.reverse.dropWhile pyWS).reverse

/-- Model of Python `s.strip()`: remove leading and trailing whitespace. -/
def pyStrip (s : String) : String := ⟨trimRChars (trimLChars s.data)⟩

/-- Model of Python slicing `s[:n]`. -/
def pyTake (n : Nat) (s : String) : String := ⟨s.data.take n⟩

/-- Characters accepted by `encode('ascii','ignore')`: 7-bit code points. -/
def isAsciiChar (c : Char) : Bool := c.toNat ≤ 127

/-- Model of `s.encode('ascii','ignore').decode('ascii')`: every character
outside the 7-bit range is removed, the rest keep their relative order. -/
def asciiFilter (s : String) : String := ⟨s.data.filter isAsciiChar⟩

/-- The name-field normalization chain from `create_request`
(`.str[:n].str.strip().str.encode('ascii','ignore').str.decode('ascii')`,
src/studentclearinghouse/nsc_request.py lines 185-197), applied to one
present (non-null) cell: slice to `n` characters, then strip, then drop
non-ASCII characters. -/
def tta (s : String) (n : Nat) : String := asciiFilter (pyStrip (pyTake n s))

/-- Pandas column version of the chain: every `.str` accessor maps a null
cell (`None`/`NaN`) to null, so the chain acts under `Option.map`. -/
def normName (n : Nat) (v : Option String) : Option String :=
  Option.map (fun s => tta s n) v

/-- The normalization described by the specification (trim first, then
truncate, then ASCII-filter, null mapped to the empty string).  Declared
only to be compared against the source chain `tta` / `normName`. -/
def truncate_trim_ascii_spec (v : Option String) (n : Nat) : String :=
  match v with
  | none => ""
  | some s => asciiFilter (pyTake n (pyStrip s))

/-! ## Search-date expansion (src/studentclearinghouse/nsc_request.py 127-142)

The constructor inspects the `search` argument, a Python `str`.  The
length-7 and length-10 branches evaluate `search.contains('-')`, but
Python `str` has no method `contains`, so reaching either branch raises
`AttributeError`.  (Had it used `'-' in search`, the length-7 branch
would still be wrong: `search[5:6]` is the single character at index 5,
so `"2020-08"` would produce `"2020001"`.)
-/

/-- Errors raised by the modelled Python code. -/
inductive PyErr where
  /-- An explicit `raise ValueError(msg)`. -/
  | valueError (msg : String)
  /-- `NameError: name np is not defined` (the `cvtdate` except branch
  returns `np.nan` but the module never imports `numpy as np`). -/
  | nameError
  /-- `AttributeError` from calling a missing attribute. -/
  | attrError
deriving DecidableEq, Repr

/-- Model of the search-expansion block in `NSCRequest.__init__`
(src/studentclearinghouse/nsc_request.py lines 127-142), for a non-empty
`search` string. -/
def expand_partial_search_date (search : String) : Except PyErr String :=
  if search.length = 4 then .ok (search ++ "0101")
  else if search.length = 6 then .ok (search ++ "01")
  else if search.length = 7 then .error .attrError
  else if search.length = 10 then .error .attrError
  else .ok search

/-! ## Request builder data model

A dataframe cell of the DOB / SearchBeginDate columns is either a
date-typed value (`datetime.date` / `datetime.datetime` /
`numpy.datetime64`) or a string; the code picks a strategy for the whole
column from the type of the first element.
-/

/-- A DOB / SearchBeginDate cell: date-typed or string. -/
inductive DVal where
  | vdate (y m d : Nat)
  | vstr (s : String)
deriving DecidableEq, Repr

/-- Zero-pad a natural number to `w` digits. -/
def padNum (w : Nat) (n : Nat) : String :=
  let s := toString n
  ⟨List.replicate (w - s.length) '0'⟩ ++ s

/-- Model of `x.strftime('%Y%m%d')` on a date value. -/
def fmtYMD (y m d : Nat) : String := padNum 4 y ++ padNum 2 m ++ padNum 2 d

/-- Gregorian leap-year test. -/
def isLeap (y : Nat) : Bool := y % 4 = 0 && (y % 100 ≠ 0 || y % 400 = 0)

/-- Days in a month of the Gregorian calendar. -/
def daysInMonth (y m : Nat) : Nat :=
  if m = 2 then (if isLeap y then 29 else 28)
  else if m = 4 || m = 6 || m = 9 || m = 11 then 30
  else 31

/-- Digit value of a character. -/
def digVal (c : Char) : Nat := c.toNat - 48

/-- Validity of a string under `pd.to_datetime(_, format='%Y%m%d')`:
eight digits forming a real calendar date.  (Pandas additionally bounds
timestamps to the years 1677-2262; that boundary is not modelled.) -/
def validYMD (s : String) : Bool :=
  match s.data with
  | [a, b, c, d, e, f, g, h] =>
    [a, b, c, d, e, f, g, h].all Char.isDigit &&
    (let y := ((digVal a * 10 + digVal b) * 10 + digVal c) * 10 + digVal d
     let m := digVal e * 10 + digVal f
     let dd := digVal g * 10 + digVal h
     1 ≤ y && 1 ≤ m && m ≤ 12 && 1 ≤ dd && dd ≤ daysInMonth y m)
  | _ => false

/-- One row of the identity table handed to `create_request`.  Name
cells are nullable strings; `sbd` is the SearchBeginDate cell (only read
when the column is present). -/
structure ReqRow where
  firstName : Option String
  middleInitial : Option String
  lastName : Option String
  suffix : Option String
  dob : DVal
  ssn : Option String
  rrf : Option String
  sbd : DVal
deriving DecidableEq, Repr

/-- The identity dataframe: rows plus column-presence flags (a missing
column cannot be read; the flags model `item in df.columns`). -/
structure ReqDF where
  rows : List ReqRow
  hasFirstName : Bool
  hasMiddleInitial : Bool
  hasLastName : Bool
  hasSuffix : Bool
  hasDOB : Bool
  hasSSN : Bool
  hasRRF : Bool
  hasSBD : Bool
deriving Repr

/-- Configuration and constructor state used by `create_request`. -/
structure Cfg where
  fice : String
  branch : String
  name : String
  inquiryType : String
  enrolledStudents : Bool
  search : String
deriving Repr

/-- One outbound body record, in the emitted column order. -/
structure ReqRecord where
  recordType : String
  ssn : Option String
  firstName : Option String
  middleInitial : Option String
  lastName : Option String
  suffix : Option String
  dob : DVal
  sbd : DVal
  blank : String
  schoolCode : String
  branchCode : String
  rrf : Option String
deriving DecidableEq, Repr

/-- The built request: header line, body rows, trailer line. -/
structure SCRequest where
  h : String
  body : List ReqRecord
  t : String
deriving DecidableEq, Repr

/-- True when one of the five required columns is absent
(src/studentclearinghouse/nsc_request.py line 166). -/
def missingRequired (df : ReqDF) : Bool :=
  !(df.hasFirstName && df.hasMiddleInitial && df.hasLastName && df.hasSuffix && df.hasDOB)

/-- Is a cell date-typed (the `isinstance` test of line 206)? -/
def isDateTyped : DVal → Bool
  | .vdate _ _ _ => true
  | .vstr _ => false

/-- Model of `cvtdate` applied to one cell: `strftime` succeeds on a
date; on a string it raises, the except branch evaluates the undefined
name `np` and the whole call dies with `NameError`. -/
def cvtdate : DVal → Except PyErr DVal
  | .vdate y m d => .ok (.vstr (fmtYMD y m d))
  | .vstr _ => .error .nameError

/-- Apply `cvtdate` down a column (`Series.apply`), propagating the
first raised error. -/
def applyCvtdate : List DVal → Except PyErr (List DVal)
  | [] => .ok []
  | v :: vs =>
    match cvtdate v with
    | .error e => .error e
    | .ok w =>
      match applyCvtdate vs with
      | .error e => .error e
      | .ok ws => .ok (w :: ws)

/-- Model of `pd.to_datetime(column, format='%Y%m%d')`: every string
cell must be a valid `YYYYMMDD` date (date-typed cells pass through). -/
def toDatetimeOk (col : List DVal) : Bool :=
  col.all fun v =>
    match v with
    | .vdate _ _ _ => true
    | .vstr s => validYMD s

/-- Build one body record (dataframe `r` of `create_request`), given the
already resolved DOB and SearchBeginDate columns as per-row functions. -/
def buildRec (cfg : Cfg) (df : ReqDF) (dobOf sbdOf : ReqRow → DVal) (r : ReqRow) : ReqRecord :=
  { recordType := "D1"
    ssn :=
      if cfg.inquiryType = "PA" && cfg.enrolledStudents = false && df.hasSSN then r.ssn
      else some ""
    firstName := normName 20 r.firstName
    middleInitial := normName 1 r.middleInitial
    lastName := normName 20 r.lastName
    suffix := normName 5 r.suffix
    dob := dobOf r
    sbd := sbdOf r
    blank := ""
    schoolCode := cfg.fice
    branchCode := cfg.branch
    rrf :=
      if df.hasRRF then Option.map (fun s => pyStrip (pyTake 50 s)) r.rrf
      else some "" }

/-- Resolve the DOB column of the studentclearinghouse builder
(src/studentclearinghouse/nsc_request.py lines 199-215): strategy chosen
from the first value; date-first columns go through `cvtdate` (a string
cell kills the build with a `NameError`), string-first columns are
validated by `pd.to_datetime` and passed through unchanged. -/
def resolveDOB (first : DVal) (rows : List ReqRow) : Except PyErr (ReqRow → DVal) :=
  if isDateTyped first then
    match applyCvtdate (rows.map (·.dob)) with
    | .error e => .error e
    | .ok _ => .ok fun r => match cvtdate r.dob with | .ok w => w | .error _ => r.dob
  else
    if toDatetimeOk (rows.map (·.dob)) then .ok fun r => r.dob
    else .error (.valueError "ERROR: DOB does not contain dates as strings in the format YYYYMMDD")

/-- Resolve the SearchBeginDate column (lines 222-229): absent column
defaults every row to the configured search string; a present column is
coerced through `cvtdate` when its first value is date-typed, otherwise
passed through with no validation. -/
def resolveSBD (cfg : Cfg) (df : ReqDF) (first : DVal) : Except PyErr (ReqRow → DVal) :=
  if !df.hasSBD then .ok fun _ => .vstr cfg.search
  else if isDateTyped first then
    match applyCvtdate (df.rows.map (·.sbd)) with
    | .error e => .error e
    | .ok _ => .ok fun r => match cvtdate r.sbd with | .ok w => w | .error _ => r.sbd
  else .ok fun r => r.sbd

/-- Model of `NSCRequest.create_request`
(src/studentclearinghouse/nsc_request.py lines 161-246).  `today` stands
for the `datetime.datetime.now().strftime('%Y%m%d')` capture.  The body
keeps, in order, the rows whose normalized FirstName is non-null
(`notna`); the trailer uses the unfiltered row count plus two. -/
def sc_create_request (cfg : Cfg) (today : String) (df : ReqDF) : Except PyErr SCRequest :=
  match df.rows with
  | [] => .error (.valueError "Dataframe is empty")
  | r0 :: _ =>
    if missingRequired df then
      .error (.valueError "ERROR: Missing one of the required columns")
    else
      match resolveDOB r0.dob df.rows with
      | .error e => .error e
      | .ok dobOf =>
        match resolveSBD cfg df r0.sbd with
        | .error e => .error e
        | .ok sbdOf =>
          .ok
            { h := "H1\t" ++ cfg.fice ++ "\t" ++ cfg.branch ++ "\t" ++
                   pyStrip (pyTake 40 cfg.name) ++ "\t" ++ today ++ "\t" ++
                   cfg.inquiryType ++ "\tI\n"
              body := ((df.rows.map (buildRec cfg df dobOf sbdOf)).filter
                        fun rec => rec.firstName.isSome)
              t := "T1\t" ++ toString (df.rows.length + 2) ++ "\n" }

/-- Outcome of the pynsc builder, which signals empty / missing-column
input with `return -1` / `return -11` instead of raising. -/
inductive PyOutcome (α : Type) where
  | retCode (n : Int)
  | raised (e : PyErr)
  | ok (a : α)
deriving Repr

/-- Model of the pynsc variant of `create_request`
(src/pynsc/nsc_request.py lines 152-237): error codes instead of raised
errors, no DOB string validation (the column is passed through), a
date-first DOB or SearchBeginDate column applies a bare `strftime`
lambda, so a string cell raises `AttributeError`; the trailer uses the
unfiltered row count (without the +2). -/
def py_create_request (cfg : Cfg) (today : String) (df : ReqDF) : PyOutcome SCRequest :=
  match df.rows with
  | [] => .retCode (-1)
  | r0 :: _ =>
    if missingRequired df then .retCode (-11)
    else if isDateTyped r0.dob && !(df.rows.all fun r => isDateTyped r.dob) then
      .raised .attrError
    else if df.hasSBD && isDateTyped r0.sbd && !(df.rows.all fun r => isDateTyped r.sbd) then
      .raised .attrError
    else
      .ok
        { h := "H1\t" ++ cfg.fice ++ "\t" ++ cfg.branch ++ "\t" ++
               pyStrip (pyTake 40 cfg.name) ++ "\t" ++ today ++ "\t" ++
               cfg.inquiryType ++ "\tI\n"
          body := ((df.rows.map (buildRec cfg df
                    (fun r =>
                      if isDateTyped r0.dob then
                        match cvtdate r.dob with | .ok w => w | .error _ => r.dob
                      else r.dob)
                    (fun r =>
                      if !df.hasSBD then .vstr cfg.search
                      else if isDateTyped r0.sbd then
                        match cvtdate r.sbd with | .ok w => w | .error _ => r.sbd
                      else r.sbd))).filter
                    fun rec => rec.firstName.isSome)
          t := "T1\t" ++ toString df.rows.length ++ "\n" }

/-! ## Helper lemmas on the string primitives -/

theorem dropWhile_idem (p : α → Bool) (l : List α) :
    (l.dropWhile p).dropWhile p = l.dropWhile p := by
  induction l with
  | nil => simp
  | cons a t ih =>
    by_cases h : p a
    · simp [List.dropWhile_cons, h, ih]
    · simp [List.dropWhile_cons, h]

theorem trimR_idem (l : List Char) : trimRChars (trimRChars l) = trimRChars l := by
  simp [trimRChars, dropWhile_idem]

theorem trimR_sublist (l : List Char) : List.Sublist (trimRChars l) l := by
  have h := List.Sublist.reverse (List.dropWhile_sublist (l := l.reverse) pyWS)
  simpa [trimRChars] using h

theorem trimL_sublist (l : List Char) : List.Sublist (trimLChars l) l :=
  List.dropWhile_sublist pyWS

/-- Right trimming never disturbs a leading element: the result is empty
or still starts with the same head. -/
theorem trimR_cons (a : Char) (t : List Char) :
    trimRChars (a :: t) = [] ∨ ∃ t', trimRChars (a :: t) = a :: t' := by
  induction t using List.reverseRecOn with
  | nil =>
    by_cases h : pyWS a
    · left; simp [trimRChars, List.dropWhile_cons, h]
    · right; exact ⟨[], by simp [trimRChars, List.dropWhile_cons, h]⟩
  | append_singleton ys b ih =>
    by_cases h : pyWS b
    · have : trimRChars (a :: (ys ++ [b])) = trimRChars (a :: ys) := by
        simp [trimRChars, List.reverse_cons, List.reverse_append, List.dropWhile_cons, h]
      rw [this]; exact ih
    · right
      refine ⟨ys ++ [b], ?_⟩
      simp [trimRChars, List.reverse_cons, List.reverse_append, List.dropWhile_cons, h]

/-- After a left trim, a further left trim of the right-trimmed result
is the identity. -/
theorem trimL_trimR_trimL (l : List Char) :
    trimLChars (trimRChars (trimLChars l)) = trimRChars (trimLChars l) := by
  induction l with
  | nil => simp [trimLChars, trimRChars]
  | cons a t ih =>
    by_cases h : pyWS a
    · simpa [trimLChars, List.dropWhile_cons, h] using ih
    · have hL : trimLChars (a :: t) = a :: t := by simp [trimLChars, List.dropWhile_cons, h]
      rw [hL]
      rcases trimR_cons a t with h0 | ⟨t', ht⟩
      · simp [h0, trimLChars]
      · simp [ht, trimLChars, List.dropWhile_cons, h]

theorem pyStrip_data (s : String) : (pyStrip s).data = trimRChars (trimLChars s.data) := rfl

theorem pyStrip_idem (s : String) : pyStrip (pyStrip s) = pyStrip s := by
  apply String.ext
  rw [pyStrip_data, pyStrip_data, trimL_trimR_trimL, trimR_idem]

theorem tta_data (s : String) (n : Nat) :
    (tta s n).data = (trimRChars (trimLChars (s.data.take n))).filter isAsciiChar := rfl

theorem tta_pre_sublist (s : String) (n : Nat) :
    List.Sublist (tta s n).data (s.data.take n) := by
  rw [tta_data]
  exact (List.filter_sublist _).trans ((trimR_sublist _).trans (trimL_sublist _))

theorem tta_sublist (s : String) (n : Nat) : List.Sublist (tta s n).data s.data :=
  (tta_pre_sublist s n).trans (List.take_sublist n s.data)

theorem tta_ascii (s : String) (n : Nat) : ∀ c ∈ (tta s n).data, isAsciiChar c := by
  rw [tta_data]
  intro c hc
  exact (List.mem_filter.mp hc).2

/-! ## Claims on the field normalizer -/

/-- C3 counterexample.  The claim states that the normalization trims
before it truncates, and that a null input yields the empty string.  On
the input cell " ab" with maximum length 2 the source chain
`.str[:2].str.strip()...` slices first (" a") and strips second ("a"),
while the claimed order gives "ab"; and a null cell propagates as null,
not as the empty string. -/
theorem C3_counterexample :
    normName 2 (some " ab") = some "a" ∧ truncate_trim_ascii_spec (some " ab") 2 = "ab" ∧
    normName 20 none = none ∧ truncate_trim_ascii_spec none 20 = "" := by
  refine ⟨by decide, by decide, rfl, rfl⟩

/-- C3 amended: the name-field normalization first truncates to the
maximum length, then trims surrounding whitespace, then silently removes
every character outside the 7-bit ASCII range while preserving the
relative order of the remaining characters (the result is a sublist of
the input); a null input propagates as null (the row is dropped later by
the FirstName notna filter rather than normalized to ""). -/
theorem C3_norm_order (n : Nat) (s : String) :
    normName n none = none ∧
    ∃ t, normName n (some s) = some t ∧
      t = asciiFilter (pyStrip (pyTake n s)) ∧
      List.Sublist t.data s.data ∧
      ∀ c ∈ t.data, isAsciiChar c := by
  exact ⟨rfl, tta s n, rfl, rfl, tta_sublist s n, tta_ascii s n⟩

/-- C9 counterexample.  The normalization is not idempotent: removing a
non-ASCII character can expose new leading whitespace that only a second
application strips.  With the cent sign U+00A2, one application of the
chain to "¢ a" yields " a", a second application yields "a". -/
theorem C9_counterexample :
    tta "¢ a" 20 = " a" ∧ tta (tta "¢ a" 20) 20 = "a" ∧
    tta (tta "¢ a" 20) 20 ≠ tta "¢ a" 20 := by
  refine ⟨by decide, by decide, by decide⟩

/-- C9 amended: on inputs consisting of ASCII characters only, the
normalization chain is idempotent:
`tta (tta s n) n = tta s n` whenever every character of `s` is 7-bit. -/
theorem C9_idem_ascii (s : String) (n : Nat)
    (h : ∀ c ∈ s.data, isAsciiChar c) :
    tta (tta s n) n = tta s n := by
  have hsub : ∀ c ∈ (tta s n).data, isAsciiChar c := fun c hc =>
    h c ((tta_sublist s n).subset hc)
  have hfilter : ((tta s n).data).filter isAsciiChar = (tta s n).data :=
    List.filter_eq_self.mpr hsub
  have hlen : (tta s n).data.length ≤ n := by
    have h1 : (tta s n).data.length ≤ (s.data.take n).length :=
      List.Sublist.length_le (tta_pre_sublist s n)
    calc (tta s n).data.length ≤ (s.data.take n).length := h1
      _ ≤ n := by simp [List.length_take]
  have htake : (tta s n).data.take n = (tta s n).data := List.take_of_length_le hlen
  have hx : List.filter isAsciiChar (trimRChars (trimLChars (s.data.take n))) =
      trimRChars (trimLChars (s.data.take n)) := by
    refine List.filter_eq_self.mpr ?_
    intro c hc
    have h1 : List.Sublist (trimRChars (trimLChars (s.data.take n))) s.data :=
      ((trimR_sublist _).trans (trimL_sublist _)).trans (List.take_sublist n s.data)
    exact h c (h1.subset hc)
  apply String.ext
  rw [tta_data (tta s n) n, htake, tta_data s n, hx, trimL_trimR_trimL, trimR_idem, hx]

/-- C9 witness: the idempotence theorem applied at the ASCII input
" hi " with maximum length 3. -/
theorem C9_idem_ascii_witness :
    (∀ c ∈ (" hi ").data, isAsciiChar c) ∧ tta (tta " hi " 3) 3 = tta " hi " 3 :=
  ⟨by decide, C9_idem_ascii " hi " 3 (by decide)⟩

/-- C4: evaluation of the search-date expansion.  The length-4 and
length-6 forms expand as the spec describes, but the length-7 and
length-10 branches evaluate `search.contains('-')` on a Python `str`,
which has no such method, so "2020-08" and "2020-08-15" raise
`AttributeError` instead of producing "20200801" and "20200815"; other
lengths pass through unchanged. -/
theorem C4_expand_eval :
    expand_partial_search_date "2020" = .ok "20200101" ∧
    expand_partial_search_date "202008" = .ok "20200801" ∧
    expand_partial_search_date "2020-08" = .error .attrError ∧
    expand_partial_search_date "2020-08-15" = .error .attrError ∧
    expand_partial_search_date "20200815" = .ok "20200815" := by
  refine ⟨rfl, rfl, rfl, rfl, rfl⟩

/-! ## Concrete request-builder inputs used by counterexamples and witnesses -/

/-- A minimal valid configuration. -/
def cfg0 : Cfg :=
  { fice := "002297", branch := "00", name := "My School", inquiryType := "SE",
    enrolledStudents := false, search := "20200801" }

/-- A fully populated, well-formed identity row. -/
def rowA : ReqRow :=
  { firstName := some "FN", middleInitial := some "M", lastName := some "LN",
    suffix := some "", dob := .vstr "20000101", ssn := none, rrf := some "ID1",
    sbd := .vstr "20200801" }

/-- One-row valid dataframe (all required columns present). -/
def dfC1 : ReqDF :=
  { rows := [rowA], hasFirstName := true, hasMiddleInitial := true,
    hasLastName := true, hasSuffix := true, hasDOB := true,
    hasSSN := false, hasRRF := true, hasSBD := false }

/-- Two-row dataframe whose second row has a null FirstName. -/
def dfC1b : ReqDF :=
  { dfC1 with rows := [rowA, { rowA with firstName := none }] }

/-- One-row dataframe whose FirstName is whitespace only. -/
def dfC2 : ReqDF :=
  { dfC1 with rows := [{ rowA with firstName := some "  " }] }

/-- Mixed DOB column: first cell date-typed, second cell a parseable
string. -/
def dfMix : ReqDF :=
  { dfC1 with rows := [{ rowA with dob := .vdate 2000 1 1 }, rowA] }

/-- DOB column holding an unparseable string. -/
def dfBad : ReqDF :=
  { dfC1 with rows := [{ rowA with dob := .vstr "garbage" }] }

/-! ## C1: trailer count -/

/-- C1 counterexample.  The claim says the trailer count equals the
number of emitted body rows.  The studentclearinghouse builder writes
the unfiltered input row count plus two: a valid one-row table emits one
body row but the trailer "T1\t3".  The pynsc builder writes the
unfiltered count: a two-row table whose second FirstName is null emits
one body row but the trailer "T1\t2". -/
theorem C1_counterexample :
    (sc_create_request cfg0 "20251012" dfC1).map (fun q => (q.body.length, q.t)) =
      Except.ok (1, "T1\t3\n") ∧
    (match py_create_request cfg0 "20251012" dfC1b with
     | .ok q => some (q.body.length, q.t)
     | _ => none) = some (1, "T1\t2\n") := by
  exact ⟨rfl, rfl⟩

/-- C1 amended: the trailer count is computed from the unfiltered input
table, not from the emitted body: the studentclearinghouse builder
writes the input row count plus two, the pynsc builder writes the bare
input row count; neither equals the number of emitted body rows when the
FirstName notna filter drops rows (and the studentclearinghouse count
differs always). -/
theorem C1_trailer_count (cfg : Cfg) (today : String) (df : ReqDF) :
    (∀ q, sc_create_request cfg today df = .ok q →
      q.t = "T1\t" ++ toString (df.rows.length + 2) ++ "\n") ∧
    (∀ q, py_create_request cfg today df = .ok q →
      q.t = "T1\t" ++ toString df.rows.length ++ "\n") := by
  constructor
  · intro q hq
    unfold sc_create_request at hq
    repeat' split at hq
    all_goals try exact Except.noConfusion hq
    all_goals try (injection hq with hq)
    all_goals try subst hq
    all_goals rfl
  · intro q hq
    unfold py_create_request at hq
    repeat' split at hq
    all_goals try exact PyOutcome.noConfusion hq
    all_goals try (injection hq with hq)
    all_goals try subst hq
    all_goals rfl

/-- C1 witness: the amended trailer theorem applied to the concrete
one-row table. -/
theorem C1_trailer_count_witness :
    ∃ q, sc_create_request cfg0 "20251012" dfC1 = .ok q ∧
      q.t = "T1\t" ++ toString (dfC1.rows.length + 2) ++ "\n" := by
  obtain ⟨q, hq⟩ : ∃ q, sc_create_request cfg0 "20251012" dfC1 = .ok q := ⟨_, rfl⟩
  exact ⟨q, hq, (C1_trailer_count cfg0 "20251012" dfC1).1 q hq⟩

/-! ## C2: dropped FirstName rows -/

/-- C2 counterexample.  The claim says every row whose FirstName
normalizes to the empty string is dropped.  The source filters with
`notna()` only, so a whitespace-only FirstName survives and is emitted
as an empty string. -/
theorem C2_counterexample :
    (sc_create_request cfg0 "20251012" dfC2).map (fun q => q.body.map (fun b => b.firstName)) =
      Except.ok [some ""] := by
  exact rfl

/-- C2 amended: the builders drop exactly the rows whose FirstName cell
is null (the notna filter); no emitted body row has a null FirstName,
but rows normalizing to the empty string are kept and emitted with an
empty FirstName. -/
theorem C2_firstName_notna (cfg : Cfg) (today : String) (df : ReqDF) :
    (∀ q, sc_create_request cfg today df = .ok q →
      ∀ b ∈ q.body, b.firstName ≠ none) ∧
    (∀ q, py_create_request cfg today df = .ok q →
      ∀ b ∈ q.body, b.firstName ≠ none) := by
  constructor
  · intro q hq b hb
    unfold sc_create_request at hq
    repeat' split at hq
    all_goals try exact Except.noConfusion hq
    all_goals try (injection hq with hq)
    all_goals try subst hq
    all_goals exact Option.isSome_iff_ne_none.mp (List.mem_filter.mp hb).2
  · intro q hq b hb
    unfold py_create_request at hq
    repeat' split at hq
    all_goals try exact PyOutcome.noConfusion hq
    all_goals try (injection hq with hq)
    all_goals try subst hq
    all_goals exact Option.isSome_iff_ne_none.mp (List.mem_filter.mp hb).2

/-- C2 witness: the amended theorem applied to the concrete whitespace
FirstName table, whose single emitted row has a non-null FirstName. -/
theorem C2_firstName_notna_witness :
    ∃ q, sc_create_request cfg0 "20251012" dfC2 = .ok q ∧
      ∀ b ∈ q.body, b.firstName ≠ none := by
  obtain ⟨q, hq⟩ : ∃ q, sc_create_request cfg0 "20251012" dfC2 = .ok q := ⟨_, rfl⟩
  exact ⟨q, hq, (C2_firstName_notna cfg0 "20251012" dfC2).1 q hq⟩

/-! ## C8: validation behaviour of the builders -/

theorem isDateTyped_false_iff (v : DVal) :
    isDateTyped v = false ↔ ∃ s, v = .vstr s := by
  cases v <;> simp [isDateTyped]

theorem applyCvtdate_error_iff (l : List DVal) :
    (∃ e, applyCvtdate l = .error e) ↔ ∃ v ∈ l, isDateTyped v = false := by
  induction l with
  | nil => simp [applyCvtdate]
  | cons v vs ih =>
    cases v with
    | vdate y m d =>
      cases happ : applyCvtdate vs with
      | error e =>
        simp only [applyCvtdate, cvtdate, happ]
        constructor
        · intro _
          obtain ⟨w, hw, hwf⟩ := ih.mp ⟨e, happ⟩
          exact ⟨w, List.mem_cons_of_mem _ hw, hwf⟩
        · intro _
          exact ⟨e, rfl⟩
      | ok ws =>
        simp only [applyCvtdate, cvtdate, happ]
        constructor
        · rintro ⟨e, he⟩
          exact Except.noConfusion he
        · rintro ⟨w, hw, hwf⟩
          rcases List.mem_cons.mp hw with h1 | h2
          · subst h1
            simp [isDateTyped] at hwf
          · have : ∃ e, applyCvtdate vs = .error e := ih.mpr ⟨w, h2, hwf⟩
            obtain ⟨e, he⟩ := this
            rw [happ] at he
            exact Except.noConfusion he
    | vstr s =>
      simp only [applyCvtdate, cvtdate]
      constructor
      · intro _
        exact ⟨.vstr s, List.mem_cons_self _ _, rfl⟩
      · intro _
        exact ⟨.nameError, rfl⟩

theorem toDatetimeOk_false_iff (l : List DVal) :
    toDatetimeOk l = false ↔ ∃ v ∈ l, ∃ s, v = .vstr s ∧ validYMD s = false := by
  unfold toDatetimeOk
  rw [List.all_eq_false]
  constructor
  · rintro ⟨v, hv, hp⟩
    cases v with
    | vdate y m d => simp at hp
    | vstr s => exact ⟨_, hv, s, rfl, by simpa using hp⟩
  · rintro ⟨v, hv, s, hvs, hs⟩
    subst hvs
    exact ⟨_, hv, by simp [hs]⟩

theorem resolveDOB_error_iff (first : DVal) (rows : List ReqRow) :
    (∃ e, resolveDOB first rows = .error e) ↔
      ((isDateTyped first = true ∧ ∃ r ∈ rows, isDateTyped r.dob = false) ∨
       (isDateTyped first = false ∧ ∃ r ∈ rows, ∃ s, r.dob = .vstr s ∧ validYMD s = false)) := by
  by_cases hf : isDateTyped first
  · rw [resolveDOB, if_pos hf]
    cases happ : applyCvtdate (rows.map (fun r => r.dob)) with
    | error e =>
      constructor
      · intro _
        obtain ⟨v, hv, hvf⟩ := (applyCvtdate_error_iff _).mp ⟨e, happ⟩
        obtain ⟨r, hr, hrv⟩ := List.mem_map.mp hv
        exact Or.inl ⟨hf, r, hr, hrv ▸ hvf⟩
      · intro _
        exact ⟨e, rfl⟩
    | ok ws =>
      constructor
      · rintro ⟨e, he⟩
        exact Except.noConfusion he
      · rintro (⟨_, r, hr, hrf⟩ | ⟨hf2, _⟩)
        · obtain ⟨e, he⟩ := (applyCvtdate_error_iff _).mpr
            ⟨r.dob, List.mem_map.mpr ⟨r, hr, rfl⟩, hrf⟩
          rw [happ] at he
          exact Except.noConfusion he
        · rw [hf] at hf2
          exact Bool.noConfusion hf2
  · rw [resolveDOB, if_neg hf]
    rw [Bool.not_eq_true] at hf
    by_cases hok : toDatetimeOk (rows.map (fun r => r.dob))
    · rw [if_pos hok]
      constructor
      · rintro ⟨e, he⟩
        exact Except.noConfusion he
      · rintro (⟨hf2, _⟩ | ⟨_, r, hr, s, hrs, hs⟩)
        · rw [hf] at hf2
          exact Bool.noConfusion hf2
        · have : toDatetimeOk (rows.map (fun r => r.dob)) = false :=
            (toDatetimeOk_false_iff _).mpr ⟨r.dob, List.mem_map.mpr ⟨r, hr, rfl⟩, s, hrs, hs⟩
          rw [hok] at this
          exact Bool.noConfusion this
    · rw [if_neg hok]
      rw [Bool.not_eq_true] at hok
      constructor
      · intro _
        obtain ⟨v, hv, s, hvs, hs⟩ := (toDatetimeOk_false_iff _).mp hok
        obtain ⟨r, hr, hrv⟩ := List.mem_map.mp hv
        exact Or.inr ⟨hf, r, hr, s, hrv ▸ hvs, hs⟩
      · intro _
        exact ⟨.valueError "ERROR: DOB does not contain dates as strings in the format YYYYMMDD", rfl⟩

theorem resolveSBD_error_iff (cfg : Cfg) (df : ReqDF) (first : DVal) :
    (∃ e, resolveSBD cfg df first = .error e) ↔
      (df.hasSBD = true ∧ isDateTyped first = true ∧
       ∃ r ∈ df.rows, isDateTyped r.sbd = false) := by
  constructor
  · rintro ⟨e, he⟩
    unfold resolveSBD at he
    split at he
    · exact Except.noConfusion he
    · next hcol =>
      split at he
      · next hf =>
        split at he
        · next e' heq =>
          have hSBD : df.hasSBD = true := by
            rcases Bool.eq_false_or_eq_true df.hasSBD with h | h
            · exact h
            · rw [h] at hcol
              simp at hcol
          obtain ⟨v, hv, hvf⟩ := (applyCvtdate_error_iff _).mp ⟨e', heq⟩
          obtain ⟨r, hr, hrv⟩ := List.mem_map.mp hv
          exact ⟨hSBD, hf, r, hr, hrv ▸ hvf⟩
        · exact Except.noConfusion he
      · exact Except.noConfusion he
  · rintro ⟨hc, hf, r, hr, hrf⟩
    unfold resolveSBD
    rw [hc]
    obtain ⟨e, he⟩ := (applyCvtdate_error_iff (df.rows.map (fun r => r.sbd))).mpr
      ⟨r.sbd, List.mem_map.mpr ⟨r, hr, rfl⟩, hrf⟩
    rw [if_neg (by simp), if_pos hf, he]
    exact ⟨e, rfl⟩

/-- C8 counterexample.  The claim states the builder raises a
ValidationError exactly on empty input, missing required columns, or DOB
values neither date-typed nor parseable.  A mixed DOB column whose first
value is date-typed and whose second is a parseable string has every
value date-typed-or-parseable, yet the studentclearinghouse builder dies
with a NameError (its `cvtdate` except branch evaluates the undefined
name `np`); and the pynsc builder does not validate DOB strings at all:
it succeeds on an unparseable DOB. -/
theorem C8_counterexample :
    sc_create_request cfg0 "20251012" dfMix = .error .nameError ∧
    (dfMix.rows.all fun r =>
      match r.dob with
      | .vdate _ _ _ => true
      | .vstr s => validYMD s) = true ∧
    (match py_create_request cfg0 "20251012" dfBad with
     | .ok _ => true
     | _ => false) = true ∧
    (dfBad.rows.any fun r =>
      match r.dob with
      | .vstr s => !validYMD s
      | _ => false) = true := by
  exact ⟨rfl, rfl, rfl, rfl⟩

/-- C8 amended: the studentclearinghouse builder raises exactly when the
input is empty, a required column is missing, or the per-column
strategy inferred from the first DOB (or present SearchBeginDate) value
fails: a date-typed first value requires every value date-typed (a
string cell dies in `cvtdate`), a string first value requires every
string cell to parse as YYYYMMDD.  The pynsc variant returns the codes
-1 (empty) and -11 (missing columns) instead of raising, and performs no
DOB string validation. -/
theorem C8_validation (cfg : Cfg) (today : String) (df : ReqDF) :
    ((∃ e, sc_create_request cfg today df = .error e) ↔
      (df.rows = [] ∨ missingRequired df = true ∨
       (∃ r0, df.rows.head? = some r0 ∧
         ((isDateTyped r0.dob = true ∧ ∃ r ∈ df.rows, isDateTyped r.dob = false) ∨
          (isDateTyped r0.dob = false ∧
            ∃ r ∈ df.rows, ∃ s, r.dob = .vstr s ∧ validYMD s = false) ∨
          (df.hasSBD = true ∧ isDateTyped r0.sbd = true ∧
            ∃ r ∈ df.rows, isDateTyped r.sbd = false))))) ∧
    ((∃ c, py_create_request cfg today df = .retCode c) ↔
      (df.rows = [] ∨ missingRequired df = true)) := by
  constructor
  · cases hdf : df.rows with
    | nil =>
      constructor
      · intro _
        exact Or.inl rfl
      · intro _
        refine ⟨.valueError "Dataframe is empty", ?_⟩
        unfold sc_create_request
        rw [hdf]
    | cons r0 tl =>
      have hsc : sc_create_request cfg today df =
          (if missingRequired df then
            .error (.valueError "ERROR: Missing one of the required columns")
          else
            match resolveDOB r0.dob (r0 :: tl) with
            | .error e => .error e
            | .ok dobOf =>
              match resolveSBD cfg df r0.sbd with
              | .error e => .error e
              | .ok sbdOf =>
                .ok
                  { h := "H1\t" ++ cfg.fice ++ "\t" ++ cfg.branch ++ "\t" ++
                         pyStrip (pyTake 40 cfg.name) ++ "\t" ++ today ++ "\t" ++
                         cfg.inquiryType ++ "\tI\n"
                    body := (((r0 :: tl).map (buildRec cfg df dobOf sbdOf)).filter
                              fun b => b.firstName.isSome)
                    t := "T1\t" ++ toString ((r0 :: tl).length + 2) ++ "\n" }) := by
        unfold sc_create_request
        rw [hdf]
      have hsbdRows : df.rows = r0 :: tl := hdf
      by_cases hm : missingRequired df
      · rw [hsc, if_pos hm]
        constructor
        · intro _
          exact Or.inr (Or.inl hm)
        · intro _
          exact ⟨_, rfl⟩
      · rw [hsc, if_neg hm]
        cases hdob : resolveDOB r0.dob (r0 :: tl) with
        | error e =>
          constructor
          · intro _
            rcases (resolveDOB_error_iff r0.dob (r0 :: tl)).mp ⟨e, hdob⟩ with h1 | h2
            · exact Or.inr (Or.inr ⟨r0, rfl, Or.inl h1⟩)
            · exact Or.inr (Or.inr ⟨r0, rfl, Or.inr (Or.inl h2)⟩)
          · intro _
            exact ⟨e, rfl⟩
        | ok dobOf =>
          cases hsbd : resolveSBD cfg df r0.sbd with
          | error e =>
            constructor
            · intro _
              obtain ⟨hc, hft, hr⟩ := (resolveSBD_error_iff cfg df r0.sbd).mp ⟨e, hsbd⟩
              rw [hsbdRows] at hr
              exact Or.inr (Or.inr ⟨r0, rfl, Or.inr (Or.inr ⟨hc, hft, hr⟩)⟩)
            · intro _
              exact ⟨e, rfl⟩
          | ok sbdOf =>
            constructor
            · rintro ⟨e, he⟩
              exact Except.noConfusion he
            · rintro (h1 | h2 | ⟨rx, hrx, h3 | h3 | h3⟩)
              · exact List.noConfusion h1
              · exact absurd h2 hm
              · rw [List.head?_cons] at hrx
                injection hrx with hx
                subst hx
                obtain ⟨e, he⟩ := (resolveDOB_error_iff r0.dob (r0 :: tl)).mpr (Or.inl h3)
                rw [hdob] at he
                exact Except.noConfusion he
              · rw [List.head?_cons] at hrx
                injection hrx with hx
                subst hx
                obtain ⟨e, he⟩ := (resolveDOB_error_iff r0.dob (r0 :: tl)).mpr (Or.inr h3)
                rw [hdob] at he
                exact Except.noConfusion he
              · rw [List.head?_cons] at hrx
                injection hrx with hx
                subst hx
                obtain ⟨e, he⟩ := (resolveSBD_error_iff cfg df r0.sbd).mpr
                  ⟨h3.1, h3.2.1, by rw [hsbdRows]; exact h3.2.2⟩
                rw [hsbd] at he
                exact Except.noConfusion he
  · cases hdf : df.rows with
    | nil =>
      constructor
      · intro _
        exact Or.inl rfl
      · intro _
        refine ⟨-1, ?_⟩
        unfold py_create_request
        rw [hdf]
    | cons r0 tl =>
      have hpy : py_create_request cfg today df =
          (if missingRequired df then (.retCode (-11) : PyOutcome SCRequest)
           else if isDateTyped r0.dob && !((r0 :: tl).all fun r => isDateTyped r.dob) then
             .raised .attrError
           else if df.hasSBD && isDateTyped r0.sbd &&
                   !((r0 :: tl).all fun r => isDateTyped r.sbd) then
             .raised .attrError
           else
             .ok
               { h := "H1\t" ++ cfg.fice ++ "\t" ++ cfg.branch ++ "\t" ++
                      pyStrip (pyTake 40 cfg.name) ++ "\t" ++ today ++ "\t" ++
                      cfg.inquiryType ++ "\tI\n"
                 body := (((r0 :: tl).map (buildRec cfg df
                           (fun r =>
                             if isDateTyped r0.dob then
                               match cvtdate r.dob with | .ok w => w | .error _ => r.dob
                             else r.dob)
                           (fun r =>
                             if !df.hasSBD then .vstr cfg.search
                             else if isDateTyped r0.sbd then
                               match cvtdate r.sbd with | .ok w => w | .error _ => r.sbd
                             else r.sbd))).filter
                           fun b => b.firstName.isSome)
                 t := "T1\t" ++ toString (r0 :: tl).length ++ "\n" }) := by
        unfold py_create_request
        rw [hdf]
      by_cases hm : missingRequired df
      · rw [hpy, if_pos hm]
        constructor
        · intro _
          exact Or.inr hm
        · intro _
          exact ⟨-11, rfl⟩
      · rw [hpy, if_neg hm]
        constructor
        · rintro ⟨c, hc⟩
          split at hc
          · exact PyOutcome.noConfusion hc
          · split at hc
            · exact PyOutcome.noConfusion hc
            · exact PyOutcome.noConfusion hc
        · rintro (h1 | h2)
          · exact List.noConfusion h1
          · exact absurd h2 hm

/-! ## Return-file aggregator (src/studentclearinghouse/nsc_return_se_convert.py)

One raw row of the SE detail file per reported semester.  All CSV cells
are text; a blank cell is null (`none`).  Enrollment Begin / End are
modelled after the `pd.to_datetime` parse as day ordinals (`Option Int`,
`none` standing for NaT from a blank cell); differences of ordinals are
the `.dt.days` spans.  The `Your Unique Identifier` column is never used
by the program (it is cut by the final projection) and is left out. -/
structure NSCRow where
  lastName : String
  firstName : String
  middleInitial : Option String
  nameSuffix : Option String
  rrf : String
  recordFound : String
  searchDate : String
  collegeSequence : Option String
  collegeCode : Option String
  collegeName : Option String
  collegeState : Option String
  year2or4 : Option String
  pubPriv : Option String
  enrollBegin : Option Int
  enrollEnd : Option Int
  enrollStatus : Option String
  classLevel : Option String
  major1 : Option String
  cip1 : Option String
  major2 : Option String
  cip2 : Option String
  graduated : Option String
  gradDate : Option String
  degreeTitle : Option String
  dmajor1 : Option String
  dcip1 : Option String
  dmajor2 : Option String
  dcip2 : Option String
  dmajor3 : Option String
  dcip3 : Option String
  dmajor4 : Option String
  dcip4 : Option String
deriving DecidableEq, Repr, Inhabited

/-- Lines 22-23: `fillna('')` on Middle Initial and Name Suffix. -/
def prepRow (r : NSCRow) : NSCRow :=
  { r with middleInitial := some (r.middleInitial.getD "")
           nameSuffix := some (r.nameSuffix.getD "") }

/-- The dataframe after the two fillna calls. -/
def prepRows (rows : List NSCRow) : List NSCRow := rows.map prepRow

/-- Lines 26-29: the no-activity partition, keeping only the columns up
to Search Date (the later columns are gone, hence null after the
concat). -/
def noActRow (r : NSCRow) : NSCRow :=
  { lastName := r.lastName, firstName := r.firstName,
    middleInitial := r.middleInitial, nameSuffix := r.nameSuffix,
    rrf := r.rrf, recordFound := r.recordFound, searchDate := r.searchDate,
    collegeSequence := none, collegeCode := none, collegeName := none,
    collegeState := none, year2or4 := none, pubPriv := none,
    enrollBegin := none, enrollEnd := none, enrollStatus := none,
    classLevel := none, major1 := none, cip1 := none, major2 := none,
    cip2 := none, graduated := none, gradDate := none, degreeTitle := none,
    dmajor1 := none, dcip1 := none, dmajor2 := none, dcip2 := none,
    dmajor3 := none, dcip3 := none, dmajor4 := none, dcip4 := none }

def noActStage (rows : List NSCRow) : List NSCRow :=
  ((prepRows rows).filter (fun r => r.recordFound == "N")).map noActRow

/-- Lines 43-44: `fillna('')` on Enrollment Major 2 and CIP 2 (done on
the found partition). -/
def fillM2 (r : NSCRow) : NSCRow :=
  { r with major2 := some (r.major2.getD ""), cip2 := some (r.cip2.getD "") }

/-- Lines 32-44: the found partition with majors-2 filled.  The
`Enrollment Days` column (line 37-40) is recomputed on demand by
`rowDays`. -/
def foundStage (rows : List NSCRow) : List NSCRow :=
  ((prepRows rows).filter (fun r => r.recordFound == "Y")).map fillM2

/-- Line 37-40: per-row span in days; NaT propagates. -/
def rowDays (r : NSCRow) : Option Int :=
  match r.enrollBegin, r.enrollEnd with
  | some b, some e => some (e - b)
  | _, _ => none

/-- One graduation fact (lines 48-59): identity + College Sequence plus
the degree columns, with Degree Title / Major 1 / CIP 1 null-filled to
UNKNOWN. -/
structure GradFact where
  lastName : String
  firstName : String
  middleInitial : Option String
  nameSuffix : Option String
  collegeSequence : Option String
  graduated : Option String
  gradDate : Option String
  degreeTitle : Option String
  dmajor1 : Option String
  dcip1 : Option String
  dmajor2 : Option String
  dcip2 : Option String
  dmajor3 : Option String
  dcip3 : Option String
  dmajor4 : Option String
  dcip4 : Option String
deriving DecidableEq, Repr

def toGradFact (r : NSCRow) : GradFact :=
  { lastName := r.lastName, firstName := r.firstName,
    middleInitial := r.middleInitial, nameSuffix := r.nameSuffix,
    collegeSequence := r.collegeSequence, graduated := r.graduated,
    gradDate := r.gradDate,
    degreeTitle := some (r.degreeTitle.getD "UNKNOWN"),
    dmajor1 := some (r.dmajor1.getD "UNKNOWN"),
    dcip1 := some (r.dcip1.getD "UNKNOWN"),
    dmajor2 := r.dmajor2, dcip2 := r.dcip2, dmajor3 := r.dmajor3,
    dcip3 := r.dcip3, dmajor4 := r.dmajor4, dcip4 := r.dcip4 }

/-- Lines 48-59: graduation facts are extracted before the fill-forward
of College Sequence, so their sequence may be null. -/
def gradStage (rows : List NSCRow) : List GradFact :=
  ((foundStage rows).filter (fun r => r.graduated == some "Y")).map toGradFact

/-- Line 63: the rows kept for period aggregation. -/
def preStudents (rows : List NSCRow) : List NSCRow :=
  (foundStage rows).filter (fun r => r.graduated == some "N")

/-- Group key of the fill-forward groupby (lines 74-75): identity,
Requester Return Field and Enrollment Begin. -/
structure FKey where
  ln : String
  fn : String
  mi : Option String
  ns : Option String
  rrf : String
  begin0 : Int
deriving DecidableEq, Repr, BEq

def fkey (r : NSCRow) (b : Int) : FKey :=
  ⟨r.lastName, r.firstName, r.middleInitial, r.nameSuffix, r.rrf, b⟩

/-- Lines 74-75: `groupby([...identity..., 'Enrollment Begin'])['College
Sequence'].ffill()` assigned back to the column.  Within each group,
later null sequences inherit the nearest preceding non-null one; a row
whose Enrollment Begin is NaT has a null group key, is dropped by the
groupby (`dropna=True`), and therefore gets a null sequence assigned
back, whatever it held before. -/
def ffillCS : List NSCRow → List (FKey × String) → List NSCRow
  | [], _ => []
  | r :: rest, seen =>
    match r.enrollBegin with
    | none => { r with collegeSequence := none } :: ffillCS rest seen
    | some b =>
      match r.collegeSequence with
      | some c => r :: ffillCS rest ((fkey r b, c) :: seen)
      | none =>
        match seen.lookup (fkey r b) with
        | some c => { r with collegeSequence := some c } :: ffillCS rest seen
        | none => r :: ffillCS rest seen

def studentsStage (rows : List NSCRow) : List NSCRow :=
  ffillCS (preStudents rows) []

/-- The enrollment-period key (lines 79-96). -/
structure PKey where
  ln : String
  fn : String
  mi : Option String
  ns : Option String
  rrf : String
  cs : Option String
deriving DecidableEq, Repr

def pkey (r : NSCRow) : PKey :=
  ⟨r.lastName, r.firstName, r.middleInitial, r.nameSuffix, r.rrf, r.collegeSequence⟩

/-- Rows that take part in the period groupby.  Pandas drops rows whose
group key contains a null (`dropna=True`), i.e. rows whose College
Sequence is still null after the fill-forward: their transform results
are NaN, their SemesterIndex is NaN, and the `SemesterIndex == 1` filter
(line 97) discards them. -/
def aggInput (rows : List NSCRow) : List NSCRow :=
  (studentsStage rows).filter (fun r => r.collegeSequence.isSome)

/-- First row of each period group, in original order (the row whose
cumcount-based SemesterIndex is 1). -/
def firstReps : List NSCRow → List PKey → List NSCRow
  | [], _ => []
  | r :: rest, seen =>
    if pkey r ∈ seen then firstReps rest seen
    else r :: firstReps rest (pkey r :: seen)

def groupOf (l : List NSCRow) (k : PKey) : List NSCRow :=
  l.filter (fun r => pkey r == k)

/-- Minimum of a list of ordinals (`transform('min')`, skipping nulls at
the call sites). -/
def optMinI : List Int → Option Int
  | [] => none
  | x :: xs => some (xs.foldl min x)

def optMaxI : List Int → Option Int
  | [] => none
  | x :: xs => some (xs.foldl max x)

/-- `transform('sum')`: null spans are skipped, the empty sum is 0. -/
def sumI (l : List Int) : Int := l.foldl (· + ·) 0

/-- `transform('last')`: last non-null entry of the group. -/
def lastNonNull (l : List (Option String)) : Option String :=
  (l.filterMap id).getLast?

/-- A row of the frame after aggregation and concat with the no-activity
partition; for a no-activity row the working columns are null. -/
structure MidRow where
  lastName : String
  firstName : String
  middleInitial : Option String
  nameSuffix : Option String
  rrf : String
  recordFound : String
  searchDate : String
  collegeSequence : Option String
  collegeCode : Option String
  collegeName : Option String
  collegeState : Option String
  year2or4 : Option String
  pubPriv : Option String
  enrollBegin : Option Int
  enrollEnd : Option Int
  enrollStatus : Option String
  classLevel : Option String
  major1 : Option String
  cip1 : Option String
  major2 : Option String
  cip2 : Option String
  lastMajor1 : Option String
  lastCip1 : Option String
  lastMajor2 : Option String
  lastCip2 : Option String
  semCount : Option Nat
  totDays : Option Int
deriving DecidableEq, Repr

/-- Lines 79-99: the representative (SemesterIndex 1) row of one period
group, carrying the aggregated columns.  `transform('count')` counts the
non-null Enrollment Begin values of the group. -/
def aggRow (rep : NSCRow) (grp : List NSCRow) : MidRow :=
  { lastName := rep.lastName, firstName := rep.firstName,
    middleInitial := rep.middleInitial, nameSuffix := rep.nameSuffix,
    rrf := rep.rrf, recordFound := rep.recordFound,
    searchDate := rep.searchDate,
    collegeSequence := rep.collegeSequence,
    collegeCode := rep.collegeCode, collegeName := rep.collegeName,
    collegeState := rep.collegeState, year2or4 := rep.year2or4,
    pubPriv := rep.pubPriv,
    enrollBegin := optMinI (grp.filterMap (fun r => r.enrollBegin)),
    enrollEnd := optMaxI (grp.filterMap (fun r => r.enrollEnd)),
    enrollStatus := rep.enrollStatus, classLevel := rep.classLevel,
    major1 := rep.major1, cip1 := rep.cip1,
    major2 := rep.major2, cip2 := rep.cip2,
    lastMajor1 := lastNonNull (grp.map (fun r => r.major1)),
    lastCip1 := lastNonNull (grp.map (fun r => r.cip1)),
    lastMajor2 := lastNonNull (grp.map (fun r => r.major2)),
    lastCip2 := lastNonNull (grp.map (fun r => r.cip2)),
    semCount := some ((grp.filterMap (fun r => r.enrollBegin)).length),
    totDays := some (sumI (grp.filterMap rowDays)) }

def aggStage (rows : List NSCRow) : List MidRow :=
  (firstReps (aggInput rows) []).map
    (fun rep => aggRow rep (groupOf (aggInput rows) (pkey rep)))

/-- Line 102: a no-activity row entering the concat; every column beyond
Search Date is absent, hence null. -/
def noActMid (r : NSCRow) : MidRow :=
  { lastName := r.lastName, firstName := r.firstName,
    middleInitial := r.middleInitial, nameSuffix := r.nameSuffix,
    rrf := r.rrf, recordFound := r.recordFound, searchDate := r.searchDate,
    collegeSequence := none, collegeCode := none, collegeName := none,
    collegeState := none, year2or4 := none, pubPriv := none,
    enrollBegin := none, enrollEnd := none, enrollStatus := none,
    classLevel := none, major1 := none, cip1 := none, major2 := none,
    cip2 := none, lastMajor1 := none, lastCip1 := none, lastMajor2 := none,
    lastCip2 := none, semCount := none, totDays := none }

def midList (rows : List NSCRow) : List MidRow :=
  aggStage rows ++ (noActStage rows).map noActMid

/-- Join keys of the graduation merge (line 104). -/
structure GKey where
  ln : String
  fn : String
  mi : Option String
  ns : Option String
  cs : Option String
deriving DecidableEq, Repr

def gkeyG (g : GradFact) : GKey :=
  ⟨g.lastName, g.firstName, g.middleInitial, g.nameSuffix, g.collegeSequence⟩

def gkeyM (m : MidRow) : GKey :=
  ⟨m.lastName, m.firstName, m.middleInitial, m.nameSuffix, m.collegeSequence⟩

/-- A row after the graduation left-join (lines 104-106): the mid-row
columns plus the degree columns; `Graduated?` is filled to N when no
fact matched.  Pandas matches null join keys with null join keys, so a
null College Sequence joins a null College Sequence. -/
structure JRow extends MidRow where
  graduated : String
  gradDate : Option String
  degreeTitle : Option String
  dmajor1 : Option String
  dcip1 : Option String
  dmajor2 : Option String
  dcip2 : Option String
  dmajor3 : Option String
  dcip3 : Option String
  dmajor4 : Option String
  dcip4 : Option String
deriving DecidableEq, Repr

def unmatchedJ (m : MidRow) : JRow :=
  { toMidRow := m, graduated := "N", gradDate := none, degreeTitle := none,
    dmajor1 := none, dcip1 := none, dmajor2 := none, dcip2 := none,
    dmajor3 := none, dcip3 := none, dmajor4 := none, dcip4 := none }

def matchedJ (m : MidRow) (g : GradFact) : JRow :=
  { toMidRow := m, graduated := g.graduated.getD "N", gradDate := g.gradDate,
    degreeTitle := g.degreeTitle, dmajor1 := g.dmajor1, dcip1 := g.dcip1,
    dmajor2 := g.dmajor2, dcip2 := g.dcip2, dmajor3 := g.dmajor3,
    dcip3 := g.dcip3, dmajor4 := g.dmajor4, dcip4 := g.dcip4 }

/-- One left-join step: a left row with no match survives once with null
degree columns (Graduated? filled to N); otherwise one output row per
matching fact, in right-frame order. -/
def joinStep (grads : List GradFact) (m : MidRow) : List JRow :=
  match grads.filter (fun g => gkeyG g == gkeyM m) with
  | [] => [unmatchedJ m]
  | ms => ms.map (matchedJ m)

def joinStage (rows : List NSCRow) : List JRow :=
  (midList rows).flatMap (joinStep (gradStage rows))

/-- Sort comparison of line 119-120: by identity, Requester Return Field
and College Sequence; null sorts last (pandas `na_position='last'`). -/
def cmpOptStr : Option String → Option String → Ordering
  | none, none => .eq
  | none, some _ => .gt
  | some _, none => .lt
  | some a, some b => compare a b

def jcmp (a b : JRow) : Ordering :=
  (compare a.lastName b.lastName).then
    ((compare a.firstName b.firstName).then
      ((cmpOptStr a.middleInitial b.middleInitial).then
        ((cmpOptStr a.nameSuffix b.nameSuffix).then
          ((compare a.rrf b.rrf).then
            (cmpOptStr a.collegeSequence b.collegeSequence)))))

def jle (a b : JRow) : Bool :=
  match jcmp a b with
  | .gt => false
  | _ => true

def insJ (a : JRow) : List JRow → List JRow
  | [] => [a]
  | b :: bs => if jle a b then a :: b :: bs else b :: insJ a bs

/-- The line 119-120 sort (pandas uses an unstable quicksort; any
reordering of equal keys is admissible, and the claims are stated up to
permutation). -/
def sortJ : List JRow → List JRow
  | [] => []
  | a :: rest => insJ a (sortJ rest)

/-- One row of the returned frame after the final projection and the
fillna calls of lines 139-144: College Sequence null becomes 0,
Semesters / Total Enrollment Days null become 0, all remaining null text
cells become the empty string.  Enrollment Begin / End stay date-valued
(`none` rendering as an empty cell). -/
structure OutRow where
  lastName : String
  firstName : String
  middleInitial : String
  nameSuffix : String
  rrf : String
  recordFound : String
  searchDate : String
  collegeSequence : String
  collegeCode : String
  collegeName : String
  collegeState : String
  year2or4 : String
  pubPriv : String
  enrollBegin : Option Int
  enrollEnd : Option Int
  enrollStatus : String
  classLevel : String
  major1 : String
  cip1 : String
  major2 : String
  cip2 : String
  lastMajor1 : String
  lastCip1 : String
  lastMajor2 : String
  lastCip2 : String
  semCount : Nat
  totDays : Int
  graduated : String
  gradDate : String
  degreeTitle : String
  dmajor1 : String
  dcip1 : String
  dmajor2 : String
  dcip2 : String
  dmajor3 : String
  dcip3 : String
  dmajor4 : String
  dcip4 : String
deriving DecidableEq, Repr, Inhabited

def renderOut (j : JRow) : OutRow :=
  { lastName := j.lastName, firstName := j.firstName,
    middleInitial := j.middleInitial.getD "",
    nameSuffix := j.nameSuffix.getD "",
    rrf := j.rrf, recordFound := j.recordFound, searchDate := j.searchDate,
    collegeSequence := j.collegeSequence.getD "0",
    collegeCode := j.collegeCode.getD "",
    collegeName := j.collegeName.getD "",
    collegeState := j.collegeState.getD "",
    year2or4 := j.year2or4.getD "", pubPriv := j.pubPriv.getD "",
    enrollBegin := j.enrollBegin, enrollEnd := j.enrollEnd,
    enrollStatus := j.enrollStatus.getD "",
    classLevel := j.classLevel.getD "",
    major1 := j.major1.getD "", cip1 := j.cip1.getD "",
    major2 := j.major2.getD "", cip2 := j.cip2.getD "",
    lastMajor1 := j.lastMajor1.getD "", lastCip1 := j.lastCip1.getD "",
    lastMajor2 := j.lastMajor2.getD "", lastCip2 := j.lastCip2.getD "",
    semCount := j.semCount.getD 0, totDays := j.totDays.getD 0,
    graduated := j.graduated, gradDate := j.gradDate.getD "",
    degreeTitle := j.degreeTitle.getD "",
    dmajor1 := j.dmajor1.getD "", dcip1 := j.dcip1.getD "",
    dmajor2 := j.dmajor2.getD "", dcip2 := j.dcip2.getD "",
    dmajor3 := j.dmajor3.getD "", dcip3 := j.dcip3.getD "",
    dmajor4 := j.dmajor4.getD "", dcip4 := j.dcip4.getD "" }

/-- Model of `nsc_return_se_convert` on the parsed row list. -/
def nsc_return_se_convert (rows : List NSCRow) : List OutRow :=
  (sortJ (joinStage rows)).map renderOut

/-! ## C10: rows with a GraduatedFlag other than Y / N vanish -/

theorem prepRow_recordFound (r : NSCRow) : (prepRow r).recordFound = r.recordFound := rfl

theorem fillM2_graduated (r : NSCRow) : (fillM2 (prepRow r)).graduated = r.graduated := rfl

/-- C10: a found row (RecordFoundFlag Y) whose GraduatedFlag is neither
Y nor N is dropped from both partitions of the found split and therefore
contributes to no output row at all: deleting it from the input leaves
the aggregator output unchanged. -/
theorem C10_odd_graduated_dropped (pre post : List NSCRow) (r : NSCRow)
    (hY : r.recordFound = "Y") (hgy : r.graduated ≠ some "Y")
    (hgn : r.graduated ≠ some "N") :
    nsc_return_se_convert (pre ++ r :: post) = nsc_return_se_convert (pre ++ post) := by
  have hN : ((prepRow r).recordFound == "N") = false := by
    rw [prepRow_recordFound, hY]
    decide
  have hYt : ((prepRow r).recordFound == "Y") = true := by
    rw [prepRow_recordFound, hY]
    decide
  have hGY : ((fillM2 (prepRow r)).graduated == some "Y") = false := by
    rw [fillM2_graduated]
    exact beq_eq_false_iff_ne.mpr hgy
  have hGN : ((fillM2 (prepRow r)).graduated == some "N") = false := by
    rw [fillM2_graduated]
    exact beq_eq_false_iff_ne.mpr hgn
  have hfound : foundStage (pre ++ r :: post) =
      ((prepRows pre).filter (fun x => x.recordFound == "Y")).map fillM2 ++
      fillM2 (prepRow r) ::
        ((prepRows post).filter (fun x => x.recordFound == "Y")).map fillM2 := by
    simp [foundStage, prepRows, List.filter_append, List.filter_cons, hYt]
  have hfound2 : foundStage (pre ++ post) =
      ((prepRows pre).filter (fun x => x.recordFound == "Y")).map fillM2 ++
      ((prepRows post).filter (fun x => x.recordFound == "Y")).map fillM2 := by
    simp [foundStage, prepRows, List.filter_append]
  have hnoact : noActStage (pre ++ r :: post) = noActStage (pre ++ post) := by
    simp [noActStage, prepRows, List.filter_append, List.filter_cons, hN]
  have hgrad : gradStage (pre ++ r :: post) = gradStage (pre ++ post) := by
    rw [gradStage, hfound, gradStage, hfound2]
    simp [List.filter_append, List.filter_cons, hGY]
  have hpre : preStudents (pre ++ r :: post) = preStudents (pre ++ post) := by
    rw [preStudents, hfound, preStudents, hfound2]
    simp [List.filter_append, List.filter_cons, hGN]
  simp only [nsc_return_se_convert, joinStage, midList, aggStage, aggInput,
    studentsStage, hnoact, hgrad, hpre]

/-- A concrete found row with all working fields populated. -/
def rowF : NSCRow :=
  { lastName := "L", firstName := "F", middleInitial := some "M",
    nameSuffix := some "", rrf := "R1", recordFound := "Y",
    searchDate := "20200801", collegeSequence := some "1",
    collegeCode := some "002297-00", collegeName := some "COLL",
    collegeState := some "NC", year2or4 := some "2", pubPriv := some "Public",
    enrollBegin := some 100, enrollEnd := some 200,
    enrollStatus := some "F", classLevel := some "F",
    major1 := some "M1", cip1 := some "11.1", major2 := some "",
    cip2 := some "", graduated := some "N", gradDate := none,
    degreeTitle := none, dmajor1 := none, dcip1 := none, dmajor2 := none,
    dcip2 := none, dmajor3 := none, dcip3 := none, dmajor4 := none,
    dcip4 := none }

/-- A found row whose GraduatedFlag is null (neither Y nor N). -/
def rowOdd : NSCRow :=
  { rowF with firstName := "F2", graduated := none }

/-- C10 witness: deleting the null-GraduatedFlag row from a concrete
two-row input leaves the output unchanged. -/
theorem C10_odd_graduated_dropped_witness :
    rowOdd.recordFound = "Y" ∧ rowOdd.graduated ≠ some "Y" ∧
    rowOdd.graduated ≠ some "N" ∧
    nsc_return_se_convert ([rowF] ++ rowOdd :: []) = nsc_return_se_convert ([rowF] ++ []) :=
  ⟨rfl, by decide, by decide,
    C10_odd_graduated_dropped [rowF] [] rowOdd rfl (by decide) (by decide)⟩

/-! ## C7: graduation facts attach only along the join key -/

theorem insJ_perm (a : JRow) (l : List JRow) : (insJ a l).Perm (a :: l) := by
  induction l with
  | nil => exact List.Perm.refl _
  | cons b bs ih =>
    by_cases h : jle a b
    · simp [insJ, h]
    · simp only [insJ, h, if_false]
      exact (List.Perm.cons b ih).trans (List.Perm.swap a b bs)

theorem sortJ_perm (l : List JRow) : (sortJ l).Perm l := by
  induction l with
  | nil => exact List.Perm.refl _
  | cons a rest ih =>
    exact (insJ_perm a (sortJ rest)).trans (List.Perm.cons a ih)

theorem gradStage_graduated (rows : List NSCRow) :
    ∀ g ∈ gradStage rows, g.graduated = some "Y" := by
  intro g hg
  obtain ⟨r, hr, hrg⟩ := List.mem_map.mp hg
  have hb := (List.mem_filter.mp hr).2
  have heq : r.graduated = some "Y" := eq_of_beq hb
  rw [← hrg]
  exact heq

/-- The join-correctness property of one output row: it renders a join
row that either carries the degree fields of a graduation fact sharing
its join key (and is marked Y), or matches no fact, is marked N and has
empty degree fields. -/
def C7Concl (rows : List NSCRow) (o : OutRow) : Prop :=
  ∃ j, j ∈ joinStage rows ∧ o = renderOut j ∧
    ((∃ g, g ∈ gradStage rows ∧ gkeyG g = gkeyM j.toMidRow ∧
        g.graduated = some "Y" ∧ j.graduated = "Y" ∧ o.graduated = "Y" ∧
        j.gradDate = g.gradDate ∧ j.degreeTitle = g.degreeTitle ∧
        j.dmajor1 = g.dmajor1 ∧ j.dcip1 = g.dcip1 ∧ j.dmajor2 = g.dmajor2 ∧
        j.dcip2 = g.dcip2 ∧ j.dmajor3 = g.dmajor3 ∧ j.dcip3 = g.dcip3 ∧
        j.dmajor4 = g.dmajor4 ∧ j.dcip4 = g.dcip4) ∨
     ((∀ g ∈ gradStage rows, gkeyG g ≠ gkeyM j.toMidRow) ∧
        j.graduated = "N" ∧ o.graduated = "N" ∧ o.gradDate = "" ∧
        o.degreeTitle = "" ∧ o.dmajor1 = "" ∧ o.dcip1 = "" ∧ o.dmajor2 = "" ∧
        o.dcip2 = "" ∧ o.dmajor3 = "" ∧ o.dcip3 = "" ∧ o.dmajor4 = "" ∧
        o.dcip4 = ""))

/-- C7: in the aggregator output, degree fields appear only on a row
sharing the (LastName, FirstName, MiddleInitial, NameSuffix,
CollegeSequence) key of some graduation fact, and every output row with
no matching graduation fact has GraduatedFlag N and empty degree
fields. -/
theorem C7_graduation_join (rows : List NSCRow) (o : OutRow)
    (ho : o ∈ nsc_return_se_convert rows) : C7Concl rows o := by
  obtain ⟨j, hjs, hjo⟩ := List.mem_map.mp ho
  have hj : j ∈ joinStage rows := (sortJ_perm (joinStage rows)).subset hjs
  refine ⟨j, hj, hjo.symm, ?_⟩
  obtain ⟨m, _, hstep⟩ := List.mem_flatMap.mp hj
  unfold joinStep at hstep
  cases hflt : (gradStage rows).filter (fun g => gkeyG g == gkeyM m) with
  | nil =>
    rw [hflt] at hstep
    have hjeq : j = unmatchedJ m := by simpa using hstep
    subst hjeq
    right
    subst hjo
    refine ⟨?_, rfl, rfl, rfl, rfl, rfl, rfl, rfl, rfl, rfl, rfl, rfl, rfl⟩
    intro g hg hkey
    have hnot := List.filter_eq_nil_iff.mp hflt g hg
    exact hnot (beq_iff_eq.mpr hkey)
  | cons g0 gs =>
    rw [hflt] at hstep
    have hstep2 : j ∈ (g0 :: gs).map (matchedJ m) := hstep
    obtain ⟨g, hgmem, hgj⟩ := List.mem_map.mp hstep2
    have hgfilter : g ∈ (gradStage rows).filter (fun g => gkeyG g == gkeyM m) := by
      rw [hflt]
      exact hgmem
    obtain ⟨hgrads, hkeyb⟩ := List.mem_filter.mp hgfilter
    have hkey : gkeyG g = gkeyM m := eq_of_beq hkeyb
    have hgy : g.graduated = some "Y" := gradStage_graduated rows g hgrads
    subst hgj
    subst hjo
    left
    refine ⟨g, hgrads, hkey, hgy, ?_, ?_, rfl, rfl, rfl, rfl, rfl, rfl, rfl, rfl, rfl, rfl⟩
    · show g.graduated.getD "N" = "Y"
      rw [hgy]
      rfl
    · show (renderOut (matchedJ m g)).graduated = "Y"
      show g.graduated.getD "N" = "Y"
      rw [hgy]
      rfl

/-- C7 witness: the join property instantiated on the single output row
of a one-row found input. -/
theorem C7_graduation_join_witness :
    (nsc_return_se_convert [rowF]).headI ∈ nsc_return_se_convert [rowF] ∧
    C7Concl [rowF] ((nsc_return_se_convert [rowF]).headI) :=
  ⟨by decide, C7_graduation_join [rowF] _ (by decide)⟩

/-! ## C6: no-activity rows -/

/-- The expected final form of a no-activity row with no matching
graduation fact: identity / correlation columns through Search Date
unchanged, every other column at the final projection defaults. -/
def noActOut (r : NSCRow) : OutRow :=
  { lastName := r.lastName, firstName := r.firstName,
    middleInitial := r.middleInitial.getD "",
    nameSuffix := r.nameSuffix.getD "",
    rrf := r.rrf, recordFound := r.recordFound, searchDate := r.searchDate,
    collegeSequence := "0", collegeCode := "", collegeName := "",
    collegeState := "", year2or4 := "", pubPriv := "",
    enrollBegin := none, enrollEnd := none, enrollStatus := "",
    classLevel := "", major1 := "", cip1 := "", major2 := "", cip2 := "",
    lastMajor1 := "", lastCip1 := "", lastMajor2 := "", lastCip2 := "",
    semCount := 0, totDays := 0, graduated := "N", gradDate := "",
    degreeTitle := "", dmajor1 := "", dcip1 := "", dmajor2 := "",
    dcip2 := "", dmajor3 := "", dcip3 := "", dmajor4 := "", dcip4 := "" }

theorem renderOut_unmatched_noActMid (r : NSCRow) :
    renderOut (unmatchedJ (noActMid r)) = noActOut r := rfl

theorem flatMap_joinStep_unmatched (grads : List GradFact) (ms : List MidRow)
    (h : ∀ g ∈ grads, ∀ m ∈ ms, gkeyG g ≠ gkeyM m) :
    ms.flatMap (joinStep grads) = ms.map unmatchedJ := by
  induction ms with
  | nil => rfl
  | cons m rest ih =>
    have hm : (grads.filter (fun g => gkeyG g == gkeyM m)) = [] := by
      apply List.filter_eq_nil_iff.mpr
      intro g hg
      have hne := h g hg m (List.mem_cons_self m rest)
      simp only [beq_iff_eq]
      exact fun hc => hne hc
    have ih2 := ih (fun g hg m' hm' => h g hg m' (List.mem_cons_of_mem _ hm'))
    simp [List.flatMap_cons, joinStep, hm, ih2]

/-- C6 counterexample.  The claim states a no-activity row is never
joined to graduation facts and carries only its identity columns, the
rest defaulted.  But the graduation merge runs after the concat, and
pandas matches null join keys, so a graduation fact with the same name
fields and a null College Sequence attaches to the no-activity row: with
a single graduated found row (null sequence) and one no-activity row of
the same name, the sole output row is the no-activity row carrying
GraduatedFlag Y and the degree fields. -/
def r1C6 : NSCRow :=
  { rowF with
    rrf := "A"
    graduated := some "Y"
    collegeSequence := none
    gradDate := some "20210515"
    dmajor1 := some "DM1" }

def r2C6 : NSCRow :=
  { lastName := "L", firstName := "F", middleInitial := some "M",
    nameSuffix := none, rrf := "B", recordFound := "N",
    searchDate := "20200801", collegeSequence := none, collegeCode := none,
    collegeName := none, collegeState := none, year2or4 := none,
    pubPriv := none, enrollBegin := none, enrollEnd := none,
    enrollStatus := none, classLevel := none, major1 := none, cip1 := none,
    major2 := none, cip2 := none, graduated := none, gradDate := none,
    degreeTitle := none, dmajor1 := none, dcip1 := none, dmajor2 := none,
    dcip2 := none, dmajor3 := none, dcip3 := none, dmajor4 := none,
    dcip4 := none }

theorem C6_counterexample :
    nsc_return_se_convert [r1C6, r2C6] =
      [{ lastName := "L", firstName := "F", middleInitial := "M",
         nameSuffix := "", rrf := "B", recordFound := "N",
         searchDate := "20200801", collegeSequence := "0",
         collegeCode := "", collegeName := "", collegeState := "",
         year2or4 := "", pubPriv := "", enrollBegin := none,
         enrollEnd := none, enrollStatus := "", classLevel := "",
         major1 := "", cip1 := "", major2 := "", cip2 := "",
         lastMajor1 := "", lastCip1 := "", lastMajor2 := "",
         lastCip2 := "", semCount := 0, totDays := 0, graduated := "Y",
         gradDate := "20210515", degreeTitle := "UNKNOWN",
         dmajor1 := "DM1", dcip1 := "UNKNOWN", dmajor2 := "",
         dcip2 := "", dmajor3 := "", dcip3 := "", dmajor4 := "",
         dcip4 := "" }] ∧
    (∀ o ∈ nsc_return_se_convert [r1C6, r2C6],
      o.recordFound = "N" ∧ o.graduated = "Y" ∧ o.dmajor1 = "DM1") := by
  exact ⟨by decide, by decide⟩

/-- C6 amended: a no-activity row is never aggregated and never dropped,
and keeps its identity / correlation columns through Search Date; it
does however pass through the graduation left-join (run after the
concat, with pandas matching null keys).  Whenever no graduation fact
carries its name fields with a null College Sequence — in particular
whenever no graduation fact matches any no-activity row — each
no-activity row appears exactly once, unchanged, with all other columns
at the final projection defaults. -/
theorem C6_no_activity (rows : List NSCRow)
    (h : ∀ g ∈ gradStage rows, ∀ r ∈ noActStage rows, gkeyG g ≠ gkeyM (noActMid r)) :
    List.Perm (nsc_return_se_convert rows)
      (((aggStage rows).flatMap (joinStep (gradStage rows))).map renderOut ++
       (noActStage rows).map noActOut) := by
  have h3 : joinStage rows =
      (aggStage rows).flatMap (joinStep (gradStage rows)) ++
      ((noActStage rows).map noActMid).flatMap (joinStep (gradStage rows)) := by
    unfold joinStage midList
    exact List.flatMap_append _ _ _
  have h4 : ((noActStage rows).map noActMid).flatMap (joinStep (gradStage rows)) =
      ((noActStage rows).map noActMid).map unmatchedJ := by
    apply flatMap_joinStep_unmatched
    intro g hg m hm
    obtain ⟨r, hr, hrm⟩ := List.mem_map.mp hm
    rw [← hrm]
    exact h g hg r hr
  have h5 : (((noActStage rows).map noActMid).map unmatchedJ).map renderOut =
      (noActStage rows).map noActOut := by
    rw [List.map_map, List.map_map]
    rfl
  have hchain : (joinStage rows).map renderOut =
      ((aggStage rows).flatMap (joinStep (gradStage rows))).map renderOut ++
      (noActStage rows).map noActOut := by
    rw [h3, List.map_append, h4, h5]
  have hp : List.Perm ((sortJ (joinStage rows)).map renderOut)
      ((joinStage rows).map renderOut) := (sortJ_perm _).map renderOut
  rw [hchain] at hp
  exact hp

/-- A concrete no-activity row unrelated to any graduation fact. -/
def rowN : NSCRow :=
  { r2C6 with lastName := "OTHER" }

/-- C6 witness: the amended theorem applied to a two-row input holding
one found row and one unrelated no-activity row. -/
theorem C6_no_activity_witness :
    (∀ g ∈ gradStage [rowF, rowN], ∀ r ∈ noActStage [rowF, rowN],
      gkeyG g ≠ gkeyM (noActMid r)) ∧
    List.Perm (nsc_return_se_convert [rowF, rowN])
      (((aggStage [rowF, rowN]).flatMap (joinStep (gradStage [rowF, rowN]))).map renderOut ++
       (noActStage [rowF, rowN]).map noActOut) :=
  ⟨by decide, C6_no_activity [rowF, rowN] (by decide)⟩

/-! ## C5: period aggregation -/

/-- The period key of a mid row. -/
def pkeyM (m : MidRow) : PKey :=
  ⟨m.lastName, m.firstName, m.middleInitial, m.nameSuffix, m.rrf, m.collegeSequence⟩

theorem firstReps_countP (l : List NSCRow) (seen : List PKey) (k : PKey) :
    (firstReps l seen).countP (fun x => pkey x == k) =
      if k ∈ seen then 0 else if l.any (fun x => pkey x == k) then 1 else 0 := by
  induction l generalizing seen with
  | nil => simp [firstReps]
  | cons r rest ih =>
    by_cases hin : pkey r ∈ seen
    · rw [firstReps, if_pos hin, ih]
      by_cases hk : k ∈ seen
      · simp [hk]
      · have hne : (pkey r == k) = false := by
          apply beq_eq_false_iff_ne.mpr
          intro hc
          exact hk (hc ▸ hin)
        simp [hk, List.any_cons, hne]
    · rw [firstReps, if_neg hin, List.countP_cons, ih]
      by_cases hrk : pkey r = k
      · have hmem : k ∈ pkey r :: seen := by
          rw [hrk]
          exact List.mem_cons_self _ _
        rw [if_pos hmem]
        have hks : k ∉ seen := by
          rw [← hrk]
          exact hin
        rw [if_neg hks]
        have hany : (r :: rest).any (fun x => pkey x == k) = true :=
          List.any_eq_true.mpr ⟨r, List.mem_cons_self _ _, beq_iff_eq.mpr hrk⟩
        rw [if_pos hany]
        simp [beq_iff_eq.mpr hrk]
      · have hne : (pkey r == k) = false := beq_eq_false_iff_ne.mpr hrk
        have hmem : (k ∈ pkey r :: seen) ↔ k ∈ seen := by
          constructor
          · intro h
            rcases List.mem_cons.mp h with h1 | h1
            · exact absurd h1.symm hrk
            · exact h1
          · exact List.mem_cons_of_mem _
        have hany : (r :: rest).any (fun x => pkey x == k) =
            rest.any (fun x => pkey x == k) := by
          simp [List.any_cons, hne]
        by_cases hk : k ∈ seen
        · rw [if_pos (hmem.mpr hk), if_pos hk]
          simp [hne]
        · rw [if_neg (fun h => hk (hmem.mp h)), if_neg hk, hany]
          simp [hne]

theorem joinStage_exists_of_midList (rows : List NSCRow) (m : MidRow)
    (hm : m ∈ midList rows) : ∃ j ∈ joinStage rows, j.toMidRow = m := by
  unfold joinStage
  cases hflt : (gradStage rows).filter (fun g => gkeyG g == gkeyM m) with
  | nil =>
    refine ⟨unmatchedJ m, List.mem_flatMap.mpr ⟨m, hm, ?_⟩, rfl⟩
    simp [joinStep, hflt]
  | cons g0 gs =>
    refine ⟨matchedJ m g0, List.mem_flatMap.mpr ⟨m, hm, ?_⟩, rfl⟩
    simp [joinStep, hflt]

/-- The per-group aggregation facts for the period key `k`: exactly one
aggregated row carries `k`, its fields are the group formulas computed
over the rows of the group in original order (`transform('count')`
counts non-null begin dates, min / max / sum skip nulls,
`transform('last')` takes the last non-null value), and the final output
contains a row rendering these aggregates. -/
def C5Concl (rows : List NSCRow) (k : PKey) : Prop :=
  ((aggStage rows).countP (fun m => pkeyM m == k) = 1) ∧
  (∀ m ∈ aggStage rows, pkeyM m = k →
    m.semCount = some (((groupOf (aggInput rows) k).filterMap (fun r => r.enrollBegin)).length) ∧
    m.enrollBegin = optMinI ((groupOf (aggInput rows) k).filterMap (fun r => r.enrollBegin)) ∧
    m.enrollEnd = optMaxI ((groupOf (aggInput rows) k).filterMap (fun r => r.enrollEnd)) ∧
    m.totDays = some (sumI ((groupOf (aggInput rows) k).filterMap rowDays)) ∧
    m.lastMajor1 = lastNonNull ((groupOf (aggInput rows) k).map (fun r => r.major1)) ∧
    m.lastCip1 = lastNonNull ((groupOf (aggInput rows) k).map (fun r => r.cip1)) ∧
    m.lastMajor2 = lastNonNull ((groupOf (aggInput rows) k).map (fun r => r.major2)) ∧
    m.lastCip2 = lastNonNull ((groupOf (aggInput rows) k).map (fun r => r.cip2)) ∧
    (∃ o ∈ nsc_return_se_convert rows,
      o.lastName = k.ln ∧ o.firstName = k.fn ∧ o.rrf = k.rrf ∧
      o.collegeSequence = k.cs.getD "0" ∧
      o.semCount = ((groupOf (aggInput rows) k).filterMap (fun r => r.enrollBegin)).length ∧
      o.totDays = sumI ((groupOf (aggInput rows) k).filterMap rowDays) ∧
      o.enrollBegin = optMinI ((groupOf (aggInput rows) k).filterMap (fun r => r.enrollBegin)) ∧
      o.enrollEnd = optMaxI ((groupOf (aggInput rows) k).filterMap (fun r => r.enrollEnd)) ∧
      o.lastMajor1 = (lastNonNull ((groupOf (aggInput rows) k).map (fun r => r.major1))).getD "" ∧
      o.lastCip1 = (lastNonNull ((groupOf (aggInput rows) k).map (fun r => r.cip1))).getD "" ∧
      o.lastMajor2 = (lastNonNull ((groupOf (aggInput rows) k).map (fun r => r.major2))).getD "" ∧
      o.lastCip2 = (lastNonNull ((groupOf (aggInput rows) k).map (fun r => r.cip2))).getD ""))

/-- C5 amended: for every period key present among the aggregation input
rows, the aggregation stage emits exactly one row, whose aggregates are
computed over the whole group in original order; the graduation
left-join can later duplicate that row (one copy per matching fact), and
the Last-Major / CIP values are the last non-null values of the group,
not necessarily those of the last row. -/
theorem C5_aggregation (rows : List NSCRow) (k : PKey)
    (hk : ∃ x ∈ aggInput rows, pkey x = k) : C5Concl rows k := by
  constructor
  · unfold aggStage
    rw [List.countP_map]
    have hpred : ((fun m => pkeyM m == k) ∘
        (fun rep => aggRow rep (groupOf (aggInput rows) (pkey rep)))) =
        fun rep => pkey rep == k := funext fun rep => rfl
    rw [hpred, firstReps_countP]
    have hany : (aggInput rows).any (fun x => pkey x == k) = true := by
      obtain ⟨x, hx, hxk⟩ := hk
      exact List.any_eq_true.mpr ⟨x, hx, beq_iff_eq.mpr hxk⟩
    simp [hany]
  · intro m hm hkey
    obtain ⟨rep, hrep, hmrep⟩ := List.mem_map.mp hm
    have hpk : pkey rep = k := by
      have h1 : pkeyM (aggRow rep (groupOf (aggInput rows) (pkey rep))) = pkey rep := rfl
      rw [← hkey, ← hmrep, h1]
    subst hpk
    subst hmrep
    have hmid : aggRow rep (groupOf (aggInput rows) (pkey rep)) ∈ midList rows :=
      List.mem_append.mpr (Or.inl hm)
    obtain ⟨j, hj, htm⟩ := joinStage_exists_of_midList rows _ hmid
    obtain ⟨tm, grad, gd, dt, dj1, dc1, dj2, dc2, dj3, dc3, dj4, dc4⟩ := j
    have htm2 : tm = aggRow rep (groupOf (aggInput rows) (pkey rep)) := htm
    subst htm2
    have hjs : (JRow.mk (aggRow rep (groupOf (aggInput rows) (pkey rep)))
        grad gd dt dj1 dc1 dj2 dc2 dj3 dc3 dj4 dc4) ∈ sortJ (joinStage rows) :=
      ((sortJ_perm (joinStage rows)).mem_iff).mpr hj
    refine ⟨rfl, rfl, rfl, rfl, rfl, rfl, rfl, rfl,
      renderOut (JRow.mk (aggRow rep (groupOf (aggInput rows) (pkey rep)))
        grad gd dt dj1 dc1 dj2 dc2 dj3 dc3 dj4 dc4),
      List.mem_map_of_mem renderOut hjs,
      rfl, rfl, rfl, rfl, rfl, rfl, rfl, rfl, rfl, rfl, rfl, rfl⟩

/-- The period key of the concrete witness group. -/
def kW : PKey := ⟨"L", "F", some "M", some "", "R1", some "1"⟩

/-- C5 witness: the aggregation theorem applied to the one-row input. -/
theorem C5_aggregation_witness :
    (∃ x ∈ aggInput [rowF], pkey x = kW) ∧ C5Concl [rowF] kW :=
  ⟨by decide, C5_aggregation [rowF] kW (by decide)⟩

/-- Two same-period rows: `rowB` appears last in input order and has a
null Enrollment Major 1. -/
def rowB : NSCRow :=
  { rowF with
    enrollBegin := some 300
    enrollEnd := some 400
    major1 := none }

/-- Two graduation facts for the same period key. -/
def rowG1 : NSCRow :=
  { rowF with graduated := some "Y", degreeTitle := some "BA" }

def rowG2 : NSCRow :=
  { rowF with graduated := some "Y", degreeTitle := some "BS" }

/-- C5 counterexample.  The claim promises exactly one output row per
period group, with the Last-Major fields taken from the row appearing
last in input order.  With a two-row group (the last row having a null
Major 1) and two graduation facts sharing the period key, the final
output holds two rows for the group (the left-join duplicates the
aggregated row per matching fact), and LastMajor1 is "M1" from the
earlier row — the last non-null value — not the null of the last row. -/
theorem C5_counterexample :
    (nsc_return_se_convert [rowF, rowB, rowG1, rowG2]).length = 2 ∧
    (nsc_return_se_convert [rowF, rowB, rowG1, rowG2]).map
      (fun o => (o.lastName, o.rrf, o.collegeSequence)) =
      [("L", "R1", "1"), ("L", "R1", "1")] ∧
    (nsc_return_se_convert [rowF, rowB, rowG1, rowG2]).map
      (fun o => o.degreeTitle) = ["BA", "BS"] ∧
    (∀ o ∈ nsc_return_se_convert [rowF, rowB, rowG1, rowG2],
      o.semCount = 2 ∧ o.lastMajor1 = "M1" ∧ o.enrollBegin = some 100 ∧
      o.enrollEnd = some 400 ∧ o.totDays = 200) := by
  exact ⟨by decide, by decide, by decide, by decide⟩

end NSC
